import Mathlib

/-!
# Verification of the Reality Defender SDK (Rust) core

Shallow embedding of the score-normalization, result-polling and batch
orchestration logic of `src/client.rs`, together with the data model of
`src/models.rs`.  Rust `f64` scores are modelled as `Rat`: the code only
ever divides a score by 100 and compares strings, so rational arithmetic
is a faithful idealization for every property considered here.
Network effects are modelled by explicit fetch/upload oracles, and each
polling function additionally reports how many fetches it performed and
how many sleeps it executed.
-/

namespace RealityDefender

/-- Minimal JSON value, enough for the `resultsSummary.metadata` object
(`serde_json::Value`); `asF64` succeeds exactly on the numeric variant. -/
inductive JsonValue where
  | num (q : Rat)
  | str (s : String)
  | other
  deriving DecidableEq

/-- `serde_json::Value::as_f64`: numeric values only. -/
def JsonValue.asF64 : JsonValue → Option Rat
  | .num q => some q
  | _ => none

/-- `serde_json::Map::get`: first binding of the key in the object. -/
def jsonGet (m : List (String × JsonValue)) (key : String) : Option JsonValue :=
  (m.find? (fun kv => kv.1 == key)).map (·.2)

/-- `models.rs` `FloatOrObject`: an untagged union of a plain number and a
structured `{reason, decision}`-style object. -/
inductive FloatOrObject where
  | float (val : Rat)
  | object (fields : List (String × JsonValue))
  deriving DecidableEq

/-- `models.rs` `DetectionModel`: one raw per-model entry of a payload. -/
structure DetectionModel where
  name : String
  status : String
  prediction_number : Option FloatOrObject
  normalized_prediction_number : Option Rat
  final_score : Option Rat
  deriving DecidableEq

/-- `models.rs` `ResultsSummary`. -/
structure ResultsSummary where
  status : String
  metadata : Option (List (String × JsonValue))
  deriving DecidableEq

/-- `models.rs` `AnalysisResult`: the raw analysis payload
(`info`, `created_at`, `updated_at` are never read by the core and are
omitted). -/
structure AnalysisResult where
  request_id : String
  status : String
  final_score : Option Rat
  models : List DetectionModel
  results_summary : Option ResultsSummary
  deriving DecidableEq

/-- `models.rs` `DetectionModelResult`: canonical per-model output. -/
structure DetectionModelResult where
  name : String
  status : String
  score : Option Rat
  deriving DecidableEq

/-- `models.rs` `DetectionResult`: the canonical detection result. -/
structure DetectionResult where
  request_id : String
  status : String
  score : Option Rat
  models : List DetectionModelResult
  deriving DecidableEq

/-- `models.rs` `UploadResult`. -/
structure UploadResult where
  request_id : String
  media_id : Option String
  result_url : Option String
  deriving DecidableEq

/-- `models.rs` `GetResultOptions`. -/
structure GetResultOptions where
  max_attempts : Option Nat
  polling_interval : Option Nat
  deriving DecidableEq

/-- `GetResultOptions::default()`. -/
def GetResultOptions.default : GetResultOptions := ⟨none, none⟩

/-- `models.rs` `BatchOptions`. -/
structure BatchOptions where
  max_concurrency : Option Nat
  max_attempts : Option Nat
  polling_interval : Option Nat
  deriving DecidableEq

/-- `error.rs` `Error` (transport-library payloads flattened to strings). -/
inductive SdkError where
  | invalidConfig (msg : String)
  | unauthorized (msg : String)
  | notFound
  | serverError (msg : String)
  | invalidFile (msg : String)
  | uploadFailed (msg : String)
  | invalidRequest (msg : String)
  | invalidData (msg : String)
  | requestError (msg : String)
  | ioError (msg : String)
  | jsonError (msg : String)
  | unknownError (msg : String)
  deriving DecidableEq

/-- The per-model part of `Client::normalize_scores` (`client.rs` 102-113):
map status `"FAKE"` to `"MANIPULATED"`, and take the score from
`prediction_number` only when it is the plain-number variant, unchanged. -/
def normalizeModel (model : DetectionModel) : DetectionModelResult :=
  { name := model.name
    status := if model.status = "FAKE" then "MANIPULATED" else model.status
    score := match model.prediction_number with
      | some (.float val) => some val
      | _ => none }

/-- `Client::normalize_scores` (`client.rs` 73-117): status mapping, overall
score resolution (top-level `final_score / 100`, then overwritten by
`resultsSummary.metadata.finalScore / 100` whenever that chain yields a
number), and the filtered, mapped model list. -/
def normalize_scores (result : AnalysisResult) : DetectionResult :=
  let base : DetectionResult :=
    { status := if result.status = "FAKE" then "MANIPULATED" else result.status
      request_id := result.request_id
      score := result.final_score.map (fun final_score => final_score / 100)
      models := [] }
  let score : Option Rat :=
    match result.results_summary with
    | none => base.score
    | some rs =>
      match rs.metadata with
      | none => base.score
      | some metadata =>
        match jsonGet metadata "finalScore" with
        | none => base.score
        | some final_score =>
          match final_score.asF64 with
          | none => base.score
          | some score_value => some (score_value / 100)
  { base with
    score := score
    models := (result.models.filter
        (fun model => model.status != "NOT_APPLICABLE")).map normalizeModel }

/-- Characterization of the `resultsSummary.metadata.finalScore` extraction
chain of `client.rs` 86-95, as one optional value. -/
def summaryFinalScore (result : AnalysisResult) : Option Rat :=
  result.results_summary.bind fun rs =>
    rs.metadata.bind fun metadata =>
      (jsonGet metadata "finalScore").bind fun v => v.asF64

/-- The raw overall score the normalizer effectively resolves: the summary
metadata value when present, else the top-level final score. -/
def effectiveRawScore (result : AnalysisResult) : Option Rat :=
  match summaryFinalScore result with
  | some q => some q
  | none => result.final_score

/-- The timeout message of `Client::wait_for_result` (`client.rs` 142-145);
the elapsed wall-clock seconds are a parameter of the embedding. -/
def timeoutMessage (secs : Nat) : String :=
  "Timed out waiting for result after " ++ toString secs ++ " seconds"

/-- The timeout message of `Client::wait_for_results` (`client.rs` 305-308). -/
def timeoutResultsMessage (secs : Nat) : String :=
  "Timed out waiting for results after " ++ toString secs ++ " seconds"

deriving instance DecidableEq for Except

/-- Outcome of a single-result polling call, together with the number of
fetches performed and the number of interval sleeps executed. -/
structure PollOutcome where
  result : Except SdkError DetectionResult
  fetches : Nat
  sleeps : Nat
  deriving DecidableEq

/-- `Client::fetch_result` (`client.rs` 64-70) against a fetch oracle that
maps the index of the network call to the raw payload (or transport error). -/
def fetch_result (fetch : Nat → Except SdkError AnalysisResult) (i : Nat) :
    Except SdkError DetectionResult :=
  (fetch i).map normalize_scores

/-- The loop of `Client::wait_for_result` (`client.rs` 128-140): `fuel`
attempts remain, `f` fetches and `s` sleeps have happened so far.  An
`"ANALYZING"` result sleeps one interval and retries; any other status is
returned; a transport error propagates; exhausted fuel yields the timeout
error of `client.rs` 142-145. -/
def wait_for_result_aux (fetch : Nat → Except SdkError AnalysisResult)
    (elapsedSecs : Nat) : Nat → Nat → Nat → PollOutcome
  | 0, f, s => ⟨.error (.unknownError (timeoutMessage elapsedSecs)), f, s⟩
  | fuel + 1, f, s =>
    match fetch_result fetch f with
    | .error e => ⟨.error e, f + 1, s⟩
    | .ok result =>
      if result.status = "ANALYZING" then
        wait_for_result_aux fetch elapsedSecs fuel (f + 1) (s + 1)
      else
        ⟨.ok result, f + 1, s⟩

/-- `Client::wait_for_result` (`client.rs` 120-146). -/
def wait_for_result (fetch : Nat → Except SdkError AnalysisResult)
    (max_attempts polling_interval elapsedSecs : Nat) : PollOutcome :=
  wait_for_result_aux fetch elapsedSecs max_attempts 0 0

/-- `Client::get_result` (`client.rs` 42-61): wait only when both
`max_attempts` and `polling_interval` are present and positive, else one
plain fetch. -/
def get_result (fetch : Nat → Except SdkError AnalysisResult)
    (options : Option GetResultOptions) (elapsedSecs : Nat) : PollOutcome :=
  let opts := options.getD GetResultOptions.default
  if opts.max_attempts.getD 0 > 0 && opts.polling_interval.getD 0 > 0 then
    wait_for_result fetch (opts.max_attempts.getD 0) (opts.polling_interval.getD 0)
      elapsedSecs
  else
    ⟨fetch_result fetch 0, 1, 0⟩

/-- `models.rs` `GetResultsOptions` (pagination, filters, polling policy). -/
structure GetResultsOptions where
  page_number : Option Nat
  size : Option Nat
  name : Option String
  start_date : Option String
  end_date : Option String
  max_attempts : Option Nat
  polling_interval : Option Nat
  deriving DecidableEq

/-- `GetResultsOptions::default()`. -/
def GetResultsOptions.default : GetResultsOptions :=
  ⟨none, none, none, none, none, none, none⟩

/-- `models.rs` `DetectionResultList`: one raw page. -/
structure DetectionResultList where
  total_items : Nat
  total_pages : Nat
  current_page : Nat
  current_page_items_count : Nat
  items : List AnalysisResult
  deriving DecidableEq

/-- `models.rs` `FormattedDetectionResultList`. -/
structure FormattedDetectionResultList where
  total_items : Nat
  total_pages : Nat
  current_page : Nat
  current_page_items_count : Nat
  items : List DetectionResult
  deriving DecidableEq

/-- `Client::format_results_list` (`client.rs` 312-329): normalize every
item, pass the pagination counters through unmodified. -/
def format_results_list (raw_result : DetectionResultList) :
    FormattedDetectionResultList :=
  { total_items := raw_result.total_items
    total_pages := raw_result.total_pages
    current_page := raw_result.current_page
    current_page_items_count := raw_result.current_page_items_count
    items := raw_result.items.map normalize_scores }

/-- Outcome of a page polling call, with fetch and sleep counters. -/
structure PagePollOutcome where
  result : Except SdkError FormattedDetectionResultList
  fetches : Nat
  sleeps : Nat
  deriving DecidableEq

/-- `Client::fetch_results` (`client.rs` 248-280) against a page-fetch
oracle (endpoint/query-string construction is transport plumbing). -/
def fetch_results (fetch : Nat → Except SdkError DetectionResultList) (i : Nat) :
    Except SdkError FormattedDetectionResultList :=
  (fetch i).map format_results_list

/-- The loop of `Client::wait_for_results` (`client.rs` 292-303): a page is
done when no item of the formatted page has status `"ANALYZING"`; otherwise
sleep one interval and re-fetch the whole page. -/
def wait_for_results_aux (fetch : Nat → Except SdkError DetectionResultList)
    (elapsedSecs : Nat) : Nat → Nat → Nat → PagePollOutcome
  | 0, f, s => ⟨.error (.unknownError (timeoutResultsMessage elapsedSecs)), f, s⟩
  | fuel + 1, f, s =>
    match fetch_results fetch f with
    | .error e => ⟨.error e, f + 1, s⟩
    | .ok result =>
      if result.items.any (fun item => item.status == "ANALYZING") then
        wait_for_results_aux fetch elapsedSecs fuel (f + 1) (s + 1)
      else
        ⟨.ok result, f + 1, s⟩

/-- `Client::wait_for_results` (`client.rs` 283-309). -/
def wait_for_results (fetch : Nat → Except SdkError DetectionResultList)
    (options : GetResultsOptions) (elapsedSecs : Nat) : PagePollOutcome :=
  wait_for_results_aux fetch elapsedSecs (options.max_attempts.getD 5) 0 0

/-- `Client::get_results` (`client.rs` 232-245). -/
def get_results (fetch : Nat → Except SdkError DetectionResultList)
    (options : Option GetResultsOptions) (elapsedSecs : Nat) : PagePollOutcome :=
  let opts := options.getD GetResultsOptions.default
  if opts.max_attempts.getD 0 > 0 && opts.polling_interval.getD 0 > 0 then
    wait_for_results fetch opts elapsedSecs
  else
    ⟨fetch_results fetch 0, 1, 0⟩

/-- Fuel-indexed body of `chunks`: Rust slice `chunks(n)` semantics for
`n > 0` (consecutive groups of size `n`, last may be shorter).  The `0`
fuel-with-nonempty-input case is unreachable when fuel starts at the
length. -/
def chunksAux (n : Nat) : Nat → List α → List (List α)
  | _, [] => []
  | 0, xs => [xs]
  | fuel + 1, xs => xs.take n :: chunksAux n fuel (xs.drop n)

/-- Rust `slice::chunks(n)` on lists (`n = 0` panics in Rust; here it is
simply never called with `0` by any theorem). -/
def chunks (n : Nat) (xs : List α) : List (List α) :=
  chunksAux n xs.length xs

/-- Result of `Client::process_batch`, instrumented with the sequence of
upload calls (file paths) and of result polls (request ids) it issues. -/
structure BatchOutcome where
  results : List DetectionResult
  upload_calls : List String
  poll_calls : List String
  deriving DecidableEq

/-- `Client::process_batch` (`client.rs` 149-229) against an upload oracle
(path to outcome) and a poll oracle (request id to the outcome of
`get_result` with the batch polling policy).  `join_all` over chunk
futures delivers, per chunk, the list of member outcomes in member order,
and the outer `join_all` delivers chunk outcomes in chunk order; the
flattened outcome list is embedded directly. -/
def process_batch (upload : String → Except SdkError UploadResult)
    (poll : String → Except SdkError DetectionResult)
    (file_paths : List String) (options : BatchOptions) : BatchOutcome :=
  if file_paths.isEmpty then ⟨[], [], []⟩
  else
    let max_concurrency := options.max_concurrency.getD 5
    let should_wait :=
      options.max_attempts.getD 0 > 0 && options.polling_interval.getD 0 > 0
    let uploads : List (Except SdkError UploadResult) :=
      ((chunks max_concurrency file_paths).map
        (fun chunk => chunk.map upload)).flatten
    let request_ids : List String :=
      uploads.filterMap (fun upload_result =>
        match upload_result with
        | .ok result => some result.request_id
        | .error _ => none)
    if should_wait then
      let results : List (Except SdkError DetectionResult) :=
        ((chunks max_concurrency request_ids).map
          (fun chunk => chunk.map poll)).flatten
      ⟨results.filterMap (fun r => r.toOption), file_paths, request_ids⟩
    else
      ⟨request_ids.map (fun id =>
        { request_id := id
          status := "PROCESSING"
          score := none
          models := [] }), file_paths, []⟩

/-- `Client::detect_file` (`client.rs` 332-347): upload, then `get_result`
on the returned request id with `max_attempts = 150`,
`polling_interval = 2000`.  `fetchFor id` is the fetch oracle for the
result endpoint of request id `id`. -/
def detect_file (upload : String → Except SdkError UploadResult)
    (fetchFor : String → Nat → Except SdkError AnalysisResult)
    (elapsedSecs : Nat) (file_path : String) : Except SdkError DetectionResult :=
  match upload file_path with
  | .error e => .error e
  | .ok upload_result =>
    (get_result (fetchFor upload_result.request_id)
      (some { max_attempts := some 150, polling_interval := some 2000 })
      elapsedSecs).result

/-- Modelled from the spec (claim wording): uploading the file and then
calling `get_result` on the returned request id with the fixed polling
policy of 150 attempts every 2000 milliseconds. -/
def detectFileSpec (upload : String → Except SdkError UploadResult)
    (fetchFor : String → Nat → Except SdkError AnalysisResult)
    (elapsedSecs : Nat) (file_path : String) : Except SdkError DetectionResult :=
  match upload file_path with
  | .error e => .error e
  | .ok upload_result =>
    (get_result (fetchFor upload_result.request_id)
      (some { max_attempts := some 150, polling_interval := some 2000 })
      elapsedSecs).result

/-! ### Concrete inputs used by counterexamples and witnesses -/

/-- A payload carrying both a top-level final score (50) and a nested
summary metadata `finalScore` (10). -/
def overridePayload : AnalysisResult :=
  { request_id := "r-c1"
    status := "COMPLETED"
    final_score := some 50
    models := []
    results_summary := some ⟨"COMPLETED", some [("finalScore", .num 10)]⟩ }

/-- The raw model of the spec's concrete scenario A:
`{name:"M", status:"FAKE", predictionNumber:92.5}`. -/
def scenarioAModel : DetectionModel :=
  { name := "M"
    status := "FAKE"
    prediction_number := some (.float (185 / 2))
    normalized_prediction_number := none
    final_score := none }

/-- The raw payload of the spec's concrete scenario A. -/
def scenarioAPayload : AnalysisResult :=
  { request_id := "r1"
    status := "FAKE"
    final_score := some 85
    models := [scenarioAModel]
    results_summary := none }

/-- A payload whose top-level final score is already at most 1 (1/2). -/
def smallScorePayload : AnalysisResult :=
  { request_id := "r-c3"
    status := "COMPLETED"
    final_score := some (1 / 2)
    models := [{ name := "M"
                 status := "COMPLETED"
                 prediction_number := some (.float (185 / 2))
                 normalized_prediction_number := none
                 final_score := none }]
    results_summary := none }

/-- A raw payload whose overall status is still `"ANALYZING"`. -/
def analyzingPayload : AnalysisResult :=
  { request_id := "r-wait"
    status := "ANALYZING"
    final_score := none
    models := []
    results_summary := none }

/-- A completed raw payload with a top-level final score of 75. -/
def completedPayload : AnalysisResult :=
  { request_id := "r-wait"
    status := "COMPLETED"
    final_score := some 75
    models := []
    results_summary := none }

/-- Stub fetch: `"ANALYZING"` for the first `k` calls, then completed. -/
def stubFetch (k i : Nat) : Except SdkError AnalysisResult :=
  if i < k then .ok analyzingPayload else .ok completedPayload

/-- A one-item page still containing an `"ANALYZING"` item. -/
def analyzingPage : DetectionResultList :=
  { total_items := 1, total_pages := 1, current_page := 0
    current_page_items_count := 1, items := [analyzingPayload] }

/-- A one-item page whose single item is completed. -/
def completedPage : DetectionResultList :=
  { total_items := 1, total_pages := 1, current_page := 0
    current_page_items_count := 1, items := [completedPayload] }

/-- Stub page fetch: an analyzing page for the first `k` calls, then a
completed page. -/
def stubPageFetch (k i : Nat) : Except SdkError DetectionResultList :=
  if i < k then .ok analyzingPage else .ok completedPage

/-- Stub upload oracle: fails on the path `"bad"`, otherwise returns the
request id `"id-" ++ path`. -/
def stubUpload (path : String) : Except SdkError UploadResult :=
  if path = "bad" then .error (.uploadFailed "upload failed")
  else .ok ⟨"id-" ++ path, none, none⟩

/-- Stub poll oracle: fails on the request id `"id-slow"`, otherwise
returns a completed result echoing the request id. -/
def stubPoll (id : String) : Except SdkError DetectionResult :=
  if id = "id-slow" then .error (.unknownError (timeoutMessage 3))
  else .ok ⟨id, "COMPLETED", some (3 / 4), []⟩

/-- The batch options used by the batch witness. -/
def witnessBatchOptions : BatchOptions :=
  { max_concurrency := some 2, max_attempts := some 3, polling_interval := some 100 }

/-! ### Helper lemmas -/

theorem normalize_scores_score_eq (result : AnalysisResult) :
    (normalize_scores result).score = (effectiveRawScore result).map (· / 100) := by
  unfold normalize_scores effectiveRawScore summaryFinalScore
  cases hrs : result.results_summary with
  | none => simp
  | some rs =>
    cases hmd : rs.metadata with
    | none => simp [hmd]
    | some metadata =>
      cases hg : jsonGet metadata "finalScore" with
      | none => simp [hmd, hg]
      | some v =>
        cases hv : v.asF64 with
        | none => simp [hmd, hg, hv]
        | some q => simp [hmd, hg, hv]

theorem normalize_scores_models_eq (result : AnalysisResult) :
    (normalize_scores result).models =
      (result.models.filter
        (fun model => model.status != "NOT_APPLICABLE")).map normalizeModel := by
  rfl

theorem normalize_scores_status_eq (result : AnalysisResult) :
    (normalize_scores result).status =
      if result.status = "FAKE" then "MANIPULATED" else result.status := by
  rfl

theorem normalize_scores_request_id_eq (result : AnalysisResult) :
    (normalize_scores result).request_id = result.request_id := by
  rfl

/-! ### C1: overall score priority -/

/-- C1 counterexample: on a payload carrying both a top-level final score
(50) and a nested summary metadata `finalScore` (10), the canonical score
is the nested value divided by 100, not the top-level one — the claimed
top-level priority is false. -/
theorem overall_score_priority_counterexample :
    (normalize_scores overridePayload).score = some (10 / 100) ∧
    ((normalize_scores overridePayload).score == some ((50 : Rat) / 100)) = false := by
  constructor
  · rfl
  · rw [show (normalize_scores overridePayload).score = some ((10 : Rat) / 100) from rfl]
    rw [beq_eq_false_iff_ne]
    simp only [ne_eq, Option.some.injEq]
    norm_num

/-- C1 (amended): the nested results-summary metadata `finalScore` takes
priority: whenever the metadata chain yields a number, the canonical
overall score is that number divided by 100, even if a top-level final
score is also present; the top-level final score (divided by 100) is used
only when the metadata chain yields nothing, and the score is absent when
neither source is present. -/
theorem overall_score_priority_amended (result : AnalysisResult) :
    (normalize_scores result).score =
      match summaryFinalScore result with
      | some q => some (q / 100)
      | none => result.final_score.map (fun s => s / 100) := by
  rw [normalize_scores_score_eq]
  cases h : summaryFinalScore result <;> simp [effectiveRawScore, h]

/-! ### C2: model score resolution -/

/-- C2 counterexample: on the spec's concrete scenario A, the model with
`predictionNumber` 92.5 gets canonical score 92.5, not the claimed
0.925 — there is no division by 100 on the model path. -/
theorem model_score_resolution_counterexample :
    ((normalize_scores scenarioAPayload).models.map (fun m => m.score)) =
      [some (185 / 2)] ∧
    (((normalize_scores scenarioAPayload).models.map (fun m => m.score)) ==
      [some ((925 : Rat) / 1000)]) = false := by
  constructor
  · rfl
  · rw [show (normalize_scores scenarioAPayload).models.map (fun m => m.score) =
        [some ((185 : Rat) / 2)] from rfl]
    rw [beq_eq_false_iff_ne]
    simp only [ne_eq, List.cons.injEq, Option.some.injEq, and_true, not_and]
    intro h
    exact absurd h (by norm_num)

/-- C2 (amended): the canonical model score is the direct numeric
prediction value used entirely unscaled when that field is a plain number,
and absent in every other case (structured object or missing field); the
normalized-prediction and final-score fields are ignored altogether. -/
theorem model_score_resolution_amended :
    (∀ m : DetectionModel, (normalizeModel m).score =
      match m.prediction_number with
      | some (.float v) => some v
      | _ => none) ∧
    (∀ (m : DetectionModel) (np fs : Option Rat),
      (normalizeModel { m with normalized_prediction_number := np,
                               final_score := fs }).score =
        (normalizeModel m).score) ∧
    (∀ result : AnalysisResult,
      (normalize_scores result).models.map (fun mr => mr.score) =
        (result.models.filter (fun model => model.status != "NOT_APPLICABLE")).map
          (fun model =>
            match model.prediction_number with
            | some (.float v) => some v
            | _ => none)) := by
  refine ⟨?_, ?_, ?_⟩
  · intro m
    cases hp : m.prediction_number with
    | none => simp [normalizeModel, hp]
    | some fo => cases fo <;> simp [normalizeModel, hp]
  · intro m np fs
    rfl
  · intro result
    rw [normalize_scores_models_eq, List.map_map]
    rfl

/-! ### C3: scale invariant -/

/-- C3 counterexample: a top-level final score of 1/2 (already at most 1)
is still divided by 100, and a model prediction of 92.5 is passed through
unchanged, so the canonical model score lies outside [0,1] — both halves
of the claimed scale rule fail. -/
theorem scale_invariant_counterexample :
    (normalize_scores smallScorePayload).score = some (1 / 200) ∧
    ((normalize_scores smallScorePayload).score == some ((1 : Rat) / 2)) = false ∧
    ((normalize_scores smallScorePayload).models.map (fun m => m.score)) =
      [some (185 / 2)] ∧
    decide ((185 / 2 : Rat) ≤ 1) = false := by
  refine ⟨?_, ?_, rfl, ?_⟩
  · rw [show (normalize_scores smallScorePayload).score =
        some ((1 : Rat) / 2 / 100) from rfl]
    norm_num
  · rw [show (normalize_scores smallScorePayload).score =
        some ((1 : Rat) / 2 / 100) from rfl]
    rw [beq_eq_false_iff_ne]
    simp only [ne_eq, Option.some.injEq]
    norm_num
  · rw [decide_eq_false_iff_not]
    norm_num

/-- C3 (amended): the resolved overall raw score is always divided by 100
(even when it is at most 1), so the canonical overall score lies in [0,1]
exactly when the raw value lies in [0,100]; model scores are passed
through entirely unscaled (the raw plain-number prediction verbatim), so
they carry no [0,1] guarantee. -/
theorem scale_handling_amended :
    (∀ result : AnalysisResult,
      (normalize_scores result).score =
        (effectiveRawScore result).map (fun s => s / 100)) ∧
    (∀ (result : AnalysisResult) (q : Rat),
      effectiveRawScore result = some q → 0 ≤ q → q ≤ 100 →
      ∃ s, (normalize_scores result).score = some s ∧ 0 ≤ s ∧ s ≤ 1) ∧
    (∀ result : AnalysisResult,
      (normalize_scores result).models.map (fun mr => mr.score) =
        (result.models.filter (fun model => model.status != "NOT_APPLICABLE")).map
          (fun model =>
            match model.prediction_number with
            | some (.float v) => some v
            | _ => none)) := by
  refine ⟨fun result => normalize_scores_score_eq result, ?_, ?_⟩
  · intro result q hq h0 h100
    refine ⟨q / 100, ?_, ?_, ?_⟩
    · rw [normalize_scores_score_eq, hq]
      rfl
    · exact div_nonneg h0 (by norm_num)
    · rw [div_le_one (by norm_num : (0 : Rat) < 100)]
      exact h100
  · intro result
    rw [normalize_scores_models_eq, List.map_map]
    rfl

/-- C3 witness: the amended overall-score bound applied at the concrete
payload whose resolved raw score is 10. -/
theorem scale_handling_amended_witness :
    effectiveRawScore overridePayload = some 10 ∧
    ∃ s, (normalize_scores overridePayload).score = some s ∧ 0 ≤ s ∧ s ≤ 1 := by
  exact ⟨rfl,
    scale_handling_amended.2.1 overridePayload 10 rfl (by norm_num) (by norm_num)⟩

/-! ### C7: model filtering and ordering -/

/-- C7: the canonical model list is exactly the raw model list with the
`"NOT_APPLICABLE"` entries removed, each remaining model mapped in place,
in upstream order; consequently no canonical model ever has status
`"NOT_APPLICABLE"`. -/
theorem models_filtered_and_ordered (result : AnalysisResult) :
    (normalize_scores result).models =
      (result.models.filter
        (fun model => model.status != "NOT_APPLICABLE")).map normalizeModel ∧
    ((normalize_scores result).models.all
      (fun mr => mr.status != "NOT_APPLICABLE")) = true := by
  refine ⟨normalize_scores_models_eq result, ?_⟩
  rw [normalize_scores_models_eq]
  rw [List.all_eq_true]
  intro mr hmr
  rcases List.mem_map.mp hmr with ⟨m, hm, rfl⟩
  rcases List.mem_filter.mp hm with ⟨-, hstatus⟩
  show ((if m.status = "FAKE" then "MANIPULATED" else m.status) != "NOT_APPLICABLE") = true
  by_cases hfake : m.status = "FAKE"
  · simp [hfake]
  · simpa [hfake] using hstatus

/-! ### C8: status vocabulary mapping -/

/-- C8: normalization rewrites the literal `"FAKE"` to `"MANIPULATED"` for
the overall status and independently for each surviving model status,
passes every other status through unchanged, and therefore no status in a
canonical result equals `"FAKE"`. -/
theorem status_mapping_invariant (result : AnalysisResult) :
    ((normalize_scores result).status =
      if result.status = "FAKE" then "MANIPULATED" else result.status) ∧
    ((normalize_scores result).models.map (fun mr => mr.status) =
      (result.models.filter (fun model => model.status != "NOT_APPLICABLE")).map
        (fun model =>
          if model.status = "FAKE" then "MANIPULATED" else model.status)) ∧
    (((normalize_scores result).status != "FAKE") = true) ∧
    ((normalize_scores result).models.all (fun mr => mr.status != "FAKE")) = true := by
  refine ⟨rfl, ?_, ?_, ?_⟩
  · rw [normalize_scores_models_eq, List.map_map]
    rfl
  · rw [normalize_scores_status_eq]
    by_cases hfake : result.status = "FAKE" <;> simp [hfake]
  · rw [normalize_scores_models_eq]
    rw [List.all_eq_true]
    intro mr hmr
    rcases List.mem_map.mp hmr with ⟨m, hm, rfl⟩
    show ((if m.status = "FAKE" then "MANIPULATED" else m.status) != "FAKE") = true
    by_cases hfake : m.status = "FAKE" <;> simp [hfake]

/-! ### Polling lemmas -/

theorem wait_for_result_aux_skip (fetch : Nat → Except SdkError AnalysisResult)
    (e : Nat) :
    ∀ (j fuel f s : Nat),
      (∀ i, i < j →
        ∃ a, fetch (f + i) = .ok a ∧ (normalize_scores a).status = "ANALYZING") →
      wait_for_result_aux fetch e (fuel + j) f s =
        wait_for_result_aux fetch e fuel (f + j) (s + j) := by
  intro j
  induction j with
  | zero => intro fuel f s _; rfl
  | succ j ih =>
    intro fuel f s h
    obtain ⟨a, ha, hstat⟩ := h 0 (Nat.succ_pos j)
    rw [Nat.add_zero] at ha
    have step : wait_for_result_aux fetch e (fuel + (j + 1)) f s =
        wait_for_result_aux fetch e (fuel + j) (f + 1) (s + 1) := by
      rw [show fuel + (j + 1) = (fuel + j) + 1 by omega]
      simp only [wait_for_result_aux, fetch_result, ha, Except.map, hstat, if_pos]
    rw [step]
    have hshift : ∀ i, i < j →
        ∃ a, fetch (f + 1 + i) = .ok a ∧ (normalize_scores a).status = "ANALYZING" := by
      intro i hi
      obtain ⟨b, hb, hbs⟩ := h (i + 1) (by omega)
      exact ⟨b, by rw [show f + 1 + i = f + (i + 1) by omega]; exact hb, hbs⟩
    rw [ih fuel (f + 1) (s + 1) hshift]
    congr 1 <;> omega

theorem wait_for_result_aux_timeout (fetch : Nat → Except SdkError AnalysisResult)
    (e j f s : Nat)
    (h : ∀ i, i < j →
      ∃ a, fetch (f + i) = .ok a ∧ (normalize_scores a).status = "ANALYZING") :
    wait_for_result_aux fetch e j f s =
      ⟨.error (.unknownError (timeoutMessage e)), f + j, s + j⟩ := by
  have := wait_for_result_aux_skip fetch e j 0 f s h
  rw [Nat.zero_add] at this
  rw [this]
  rfl

theorem wait_for_result_aux_terminal (fetch : Nat → Except SdkError AnalysisResult)
    (e fuel f s : Nat) (a : AnalysisResult)
    (ha : fetch f = .ok a) (hstat : (normalize_scores a).status ≠ "ANALYZING") :
    wait_for_result_aux fetch e (fuel + 1) f s =
      ⟨.ok (normalize_scores a), f + 1, s⟩ := by
  simp [wait_for_result_aux, fetch_result, ha, Except.map, hstat]

theorem wait_for_result_aux_fetches_le (fetch : Nat → Except SdkError AnalysisResult)
    (e : Nat) :
    ∀ fuel f s, (wait_for_result_aux fetch e fuel f s).fetches ≤ f + fuel := by
  intro fuel
  induction fuel with
  | zero => intro f s; simp [wait_for_result_aux]
  | succ fuel ih =>
    intro f s
    simp only [wait_for_result_aux]
    cases hf : fetch_result fetch f with
    | error err =>
      show (⟨.error err, f + 1, s⟩ : PollOutcome).fetches ≤ f + (fuel + 1)
      simp
    | ok r =>
      show (if r.status = "ANALYZING" then wait_for_result_aux fetch e fuel (f + 1) (s + 1)
          else ⟨.ok r, f + 1, s⟩ : PollOutcome).fetches ≤ f + (fuel + 1)
      by_cases h : r.status = "ANALYZING"
      · rw [if_pos h]
        have := ih (f + 1) (s + 1)
        omega
      · rw [if_neg h]
        show f + 1 ≤ f + (fuel + 1)
        omega

/-! ### C4: single-result polling -/

/-- C4: with a disabled policy (zero/absent attempts or interval)
`get_result` performs exactly one fetch and returns its normalized result
regardless of status; with an enabled policy it performs at most
`max_attempts` fetches, and on a stub that is `"ANALYZING"` for the first
`k` fetches and terminal afterwards it returns the terminal normalized
result after exactly `k + 1` fetches (sleeping `k` times in between) when
`max_attempts > k`, and the timeout error carrying elapsed time when
`max_attempts ≤ k`. -/
theorem get_result_polling_behavior
    (fetch : Nat → Except SdkError AnalysisResult)
    (k interval elapsedSecs : Nat) (a : AnalysisResult)
    (hk : ∀ i, i < k →
      ∃ b, fetch i = .ok b ∧ (normalize_scores b).status = "ANALYZING")
    (hterm : fetch k = .ok a)
    (hstat : ¬ (normalize_scores a).status = "ANALYZING")
    (hi : 0 < interval) :
    (∀ options : Option GetResultOptions,
        (options.getD GetResultOptions.default).max_attempts.getD 0 = 0 ∨
        (options.getD GetResultOptions.default).polling_interval.getD 0 = 0 →
        get_result fetch options elapsedSecs = ⟨fetch_result fetch 0, 1, 0⟩) ∧
    (∀ (g : Nat → Except SdkError AnalysisResult) (m p e : Nat), 0 < m → 0 < p →
        (get_result g (some ⟨some m, some p⟩) e).fetches ≤ m) ∧
    (∀ m, k < m →
        get_result fetch (some ⟨some m, some interval⟩) elapsedSecs =
          ⟨.ok (normalize_scores a), k + 1, k⟩) ∧
    (∀ m, 0 < m → m ≤ k →
        get_result fetch (some ⟨some m, some interval⟩) elapsedSecs =
          ⟨.error (.unknownError (timeoutMessage elapsedSecs)), m, m⟩) := by
  refine ⟨?_, ?_, ?_, ?_⟩
  · intro options hdis
    unfold get_result
    rcases hdis with h | h <;> simp [h]
  · intro g m p e hm hp
    unfold get_result
    simp only [Option.getD]
    rw [if_pos (by simp [hm, hp])]
    have := wait_for_result_aux_fetches_le g e m 0 0
    simpa [wait_for_result] using this
  · intro m hm
    unfold get_result
    simp only [Option.getD]
    rw [if_pos (by simp [hi]; omega)]
    show wait_for_result fetch m interval elapsedSecs = _
    unfold wait_for_result
    rw [show m = (m - k - 1 + 1) + k by omega]
    rw [wait_for_result_aux_skip fetch elapsedSecs k (m - k - 1 + 1) 0 0
      (fun i hi' => by simpa using hk i hi')]
    simp only [Nat.zero_add]
    exact wait_for_result_aux_terminal fetch elapsedSecs (m - k - 1) k k a hterm hstat
  · intro m hm0 hmk
    unfold get_result
    simp only [Option.getD]
    rw [if_pos (by simp [hi, hm0])]
    show wait_for_result fetch m interval elapsedSecs = _
    unfold wait_for_result
    rw [wait_for_result_aux_timeout fetch elapsedSecs m 0 0
      (fun i hi' => by simpa using hk i (by omega))]
    simp

/-- C4 witness: the stub that analyzes once and then completes, polled with
budgets 3 (succeeds after 2 fetches), 1 (times out) and 0 (single fetch). -/
theorem get_result_polling_behavior_witness :
    get_result (stubFetch 1) (some ⟨some 3, some 1000⟩) 9 =
      ⟨.ok (normalize_scores completedPayload), 2, 1⟩ ∧
    get_result (stubFetch 1) (some ⟨some 1, some 1000⟩) 9 =
      ⟨.error (.unknownError (timeoutMessage 9)), 1, 1⟩ ∧
    get_result (stubFetch 1) (some ⟨some 0, some 1000⟩) 9 =
      ⟨fetch_result (stubFetch 1) 0, 1, 0⟩ := by
  have h := get_result_polling_behavior (stubFetch 1) 1 1000 9 completedPayload
    (fun i hi => ⟨analyzingPayload, by
      rw [show i = 0 by omega]; rfl, rfl⟩)
    rfl (by decide) (by norm_num)
  exact ⟨h.2.2.1 3 (by norm_num), h.2.2.2 1 (by norm_num) (le_refl 1),
    h.1 (some ⟨some 0, some 1000⟩) (Or.inl rfl)⟩

/-! ### Page polling lemmas -/

theorem wait_for_results_aux_skip (fetch : Nat → Except SdkError DetectionResultList)
    (e : Nat) :
    ∀ (j fuel f s : Nat),
      (∀ i, i < j → ∃ p, fetch (f + i) = .ok p ∧
        ((format_results_list p).items.any
          (fun item => item.status == "ANALYZING")) = true) →
      wait_for_results_aux fetch e (fuel + j) f s =
        wait_for_results_aux fetch e fuel (f + j) (s + j) := by
  intro j
  induction j with
  | zero => intro fuel f s _; rfl
  | succ j ih =>
    intro fuel f s h
    obtain ⟨p, hp, hany⟩ := h 0 (Nat.succ_pos j)
    rw [Nat.add_zero] at hp
    have step : wait_for_results_aux fetch e (fuel + (j + 1)) f s =
        wait_for_results_aux fetch e (fuel + j) (f + 1) (s + 1) := by
      rw [show fuel + (j + 1) = (fuel + j) + 1 by omega]
      simp only [wait_for_results_aux, fetch_results, hp, Except.map, hany, if_pos]
    rw [step]
    have hshift : ∀ i, i < j → ∃ p, fetch (f + 1 + i) = .ok p ∧
        ((format_results_list p).items.any
          (fun item => item.status == "ANALYZING")) = true := by
      intro i hi
      obtain ⟨q, hq, hqs⟩ := h (i + 1) (by omega)
      exact ⟨q, by rw [show f + 1 + i = f + (i + 1) by omega]; exact hq, hqs⟩
    rw [ih fuel (f + 1) (s + 1) hshift]
    congr 1 <;> omega

theorem wait_for_results_aux_timeout (fetch : Nat → Except SdkError DetectionResultList)
    (e j f s : Nat)
    (h : ∀ i, i < j → ∃ p, fetch (f + i) = .ok p ∧
      ((format_results_list p).items.any
        (fun item => item.status == "ANALYZING")) = true) :
    wait_for_results_aux fetch e j f s =
      ⟨.error (.unknownError (timeoutResultsMessage e)), f + j, s + j⟩ := by
  have := wait_for_results_aux_skip fetch e j 0 f s h
  rw [Nat.zero_add] at this
  rw [this]
  rfl

theorem wait_for_results_aux_terminal (fetch : Nat → Except SdkError DetectionResultList)
    (e fuel f s : Nat) (p : DetectionResultList)
    (hp : fetch f = .ok p)
    (hnone : ((format_results_list p).items.any
      (fun item => item.status == "ANALYZING")) = false) :
    wait_for_results_aux fetch e (fuel + 1) f s =
      ⟨.ok (format_results_list p), f + 1, s⟩ := by
  simp [wait_for_results_aux, fetch_results, hp, Except.map, hnone]

/-! ### C9: whole-page polling -/

/-- C9: with a waiting policy (positive attempts and interval),
`get_results` re-fetches the whole page; on a stub whose first `k` pages
still contain an `"ANALYZING"` item and whose page `k` contains none, it
returns the formatted page `k` after exactly `k + 1` fetches (sleeping `k`
times) when `max_attempts > k`, and fails with the timeout error when
`max_attempts ≤ k` — the unit of completion is the page, not an item. -/
theorem get_results_page_polling
    (fetch : Nat → Except SdkError DetectionResultList)
    (k interval elapsedSecs : Nat) (p : DetectionResultList)
    (opts : GetResultsOptions)
    (hk : ∀ i, i < k → ∃ q, fetch i = .ok q ∧
      ((format_results_list q).items.any
        (fun item => item.status == "ANALYZING")) = true)
    (hterm : fetch k = .ok p)
    (hnone : ((format_results_list p).items.any
      (fun item => item.status == "ANALYZING")) = false)
    (hi : 0 < interval) :
    (∀ m, k < m →
        get_results fetch
          (some { opts with max_attempts := some m, polling_interval := some interval })
          elapsedSecs =
          ⟨.ok (format_results_list p), k + 1, k⟩) ∧
    (∀ m, 0 < m → m ≤ k →
        get_results fetch
          (some { opts with max_attempts := some m, polling_interval := some interval })
          elapsedSecs =
          ⟨.error (.unknownError (timeoutResultsMessage elapsedSecs)), m, m⟩) := by
  constructor
  · intro m hm
    unfold get_results
    simp only [Option.getD]
    rw [if_pos (by simp [hi]; omega)]
    show wait_for_results fetch _ elapsedSecs = _
    unfold wait_for_results
    simp only [Option.getD_some]
    rw [show m = (m - k - 1 + 1) + k by omega]
    rw [wait_for_results_aux_skip fetch elapsedSecs k (m - k - 1 + 1) 0 0
      (fun i hi' => by simpa using hk i hi')]
    simp only [Nat.zero_add]
    exact wait_for_results_aux_terminal fetch elapsedSecs (m - k - 1) k k p hterm hnone
  · intro m hm0 hmk
    unfold get_results
    simp only [Option.getD]
    rw [if_pos (by simp [hi, hm0])]
    show wait_for_results fetch _ elapsedSecs = _
    unfold wait_for_results
    simp only [Option.getD_some]
    rw [wait_for_results_aux_timeout fetch elapsedSecs m 0 0
      (fun i hi' => by simpa using hk i (by omega))]
    simp

/-- C9 witness: the stub page that analyzes once then completes, with
budgets 4 (succeeds after 2 fetches) and 1 (times out). -/
theorem get_results_page_polling_witness :
    get_results (stubPageFetch 1)
      (some { GetResultsOptions.default with
                max_attempts := some 4, polling_interval := some 500 }) 11 =
      ⟨.ok (format_results_list completedPage), 2, 1⟩ ∧
    get_results (stubPageFetch 1)
      (some { GetResultsOptions.default with
                max_attempts := some 1, polling_interval := some 500 }) 11 =
      ⟨.error (.unknownError (timeoutResultsMessage 11)), 1, 1⟩ := by
  have h := get_results_page_polling (stubPageFetch 1) 1 500 11 completedPage
    GetResultsOptions.default
    (fun i hi => ⟨analyzingPage, by rw [show i = 0 by omega]; rfl, rfl⟩)
    rfl rfl (by norm_num)
  exact ⟨h.1 4 (by norm_num), h.2 1 (by norm_num) (le_refl 1)⟩

/-! ### Chunking lemmas -/

theorem chunksAux_flatten {α : Type} (n : Nat) (hn : 0 < n) :
    ∀ (fuel : Nat) (xs : List α), xs.length ≤ fuel →
      (chunksAux n fuel xs).flatten = xs := by
  intro fuel
  induction fuel with
  | zero =>
    intro xs h
    cases xs with
    | nil => rfl
    | cons a l => simp at h
  | succ fuel ih =>
    intro xs h
    cases xs with
    | nil => rfl
    | cons a l =>
      show ((a :: l).take n :: chunksAux n fuel ((a :: l).drop n)).flatten = a :: l
      rw [List.flatten_cons]
      have hlen : ((a :: l).drop n).length ≤ fuel := by
        rw [List.length_drop, List.length_cons]
        rw [List.length_cons] at h
        omega
      rw [ih ((a :: l).drop n) hlen]
      exact List.take_append_drop n (a :: l)

theorem chunks_flatten {α : Type} (n : Nat) (hn : 0 < n) (xs : List α) :
    (chunks n xs).flatten = xs :=
  chunksAux_flatten n hn xs.length xs (le_refl _)

theorem chunks_map_flatten {α β : Type} (n : Nat) (hn : 0 < n) (xs : List α)
    (f : α → β) :
    ((chunks n xs).map (List.map f)).flatten = xs.map f := by
  rw [← List.map_flatten, chunks_flatten n hn]

/-- Collapse of the grouped upload/poll plumbing of `process_batch`: with a
positive concurrency bound, chunking and flattening is the identity, so
the outcome is the straightforward per-path fold. -/
theorem process_batch_eq (upload : String → Except SdkError UploadResult)
    (poll : String → Except SdkError DetectionResult)
    (file_paths : List String) (options : BatchOptions)
    (h0 : 0 < options.max_concurrency.getD 5) :
    process_batch upload poll file_paths options =
      if file_paths.isEmpty then ⟨[], [], []⟩
      else
        (fun request_ids =>
          if options.max_attempts.getD 0 > 0 && options.polling_interval.getD 0 > 0 then
            (⟨request_ids.filterMap (fun id => (poll id).toOption),
              file_paths, request_ids⟩ : BatchOutcome)
          else
            ⟨request_ids.map (fun id =>
              { request_id := id, status := "PROCESSING", score := none, models := [] }),
              file_paths, []⟩)
        (file_paths.filterMap (fun path =>
          match upload path with
          | .ok result => some result.request_id
          | .error _ => none)) := by
  by_cases hemp : file_paths.isEmpty = true
  · unfold process_batch
    rw [if_pos hemp, if_pos hemp]
  · unfold process_batch
    rw [if_neg hemp, if_neg hemp]
    dsimp only
    rw [chunks_map_flatten _ h0, List.filterMap_map]
    rw [chunks_map_flatten _ h0, List.filterMap_map]
    rfl

/-! ### C6: batch error isolation and shape -/

/-- C6: `process_batch` on an empty input returns an empty outcome with no
upload or poll calls; in general, exactly the inputs are uploaded once
each in order, the results are the per-input fold with every failed upload
or failed poll silently dropped (in input order), the output is never
longer than the input, and (when the fetched results echo their request
id) every output's request id comes from a successful upload of some
input. -/
theorem process_batch_partial_failure
    (upload : String → Except SdkError UploadResult)
    (poll : String → Except SdkError DetectionResult)
    (file_paths : List String) (options : BatchOptions)
    (h0 : 0 < options.max_concurrency.getD 5)
    (hecho : ∀ id r, poll id = .ok r → r.request_id = id) :
    (process_batch upload poll [] options = ⟨[], [], []⟩) ∧
    ((process_batch upload poll file_paths options).upload_calls =
      if file_paths.isEmpty then [] else file_paths) ∧
    ((process_batch upload poll file_paths options).results =
      (if file_paths.isEmpty then []
       else
        (fun request_ids =>
          if options.max_attempts.getD 0 > 0 && options.polling_interval.getD 0 > 0 then
            request_ids.filterMap (fun id => (poll id).toOption)
          else
            request_ids.map (fun id =>
              { request_id := id, status := "PROCESSING", score := none, models := [] }))
        (file_paths.filterMap (fun path =>
          match upload path with
          | .ok result => some result.request_id
          | .error _ => none)))) ∧
    ((process_batch upload poll file_paths options).results.length ≤
      file_paths.length) ∧
    (∀ dr ∈ (process_batch upload poll file_paths options).results,
      ∃ path ∈ file_paths, ∃ ur, upload path = .ok ur ∧
        dr.request_id = ur.request_id) := by
  have hchar := process_batch_eq upload poll file_paths options h0
  have hids : ∀ id, id ∈ (file_paths.filterMap (fun path =>
      match upload path with
      | .ok result => some result.request_id
      | .error _ => none)) →
      ∃ path ∈ file_paths, ∃ ur, upload path = .ok ur ∧ id = ur.request_id := by
    intro id hid
    rcases List.mem_filterMap.mp hid with ⟨path, hpath, hup⟩
    cases hu : upload path with
    | error err => rw [hu] at hup; cases hup
    | ok ur =>
      rw [hu] at hup
      exact ⟨path, hpath, ur, hu, by cases hup; rfl⟩
  refine ⟨rfl, ?_, ?_, ?_, ?_⟩
  · rw [hchar]
    by_cases hemp : file_paths.isEmpty = true
    · rw [if_pos hemp, if_pos hemp]
    · rw [if_neg hemp, if_neg hemp]
      dsimp only
      split <;> rfl
  · rw [hchar]
    by_cases hemp : file_paths.isEmpty = true
    · rw [if_pos hemp, if_pos hemp]
    · rw [if_neg hemp, if_neg hemp]
      dsimp only
      split <;> rfl
  · rw [hchar]
    by_cases hemp : file_paths.isEmpty = true
    · rw [if_pos hemp]
      simp
    · rw [if_neg hemp]
      dsimp only
      by_cases hwait : (options.max_attempts.getD 0 > 0 &&
          options.polling_interval.getD 0 > 0) = true
      · rw [if_pos hwait]
        calc (List.filterMap _ (List.filterMap _ file_paths)).length
            ≤ (List.filterMap (fun path =>
                match upload path with
                | .ok result => some result.request_id
                | .error _ => none) file_paths).length :=
              List.length_filterMap_le _ _
          _ ≤ file_paths.length := List.length_filterMap_le _ _
      · rw [if_neg hwait]
        rw [List.length_map]
        exact List.length_filterMap_le _ _
  · rw [hchar]
    by_cases hemp : file_paths.isEmpty = true
    · rw [if_pos hemp]
      intro dr hdr
      cases hdr
    · rw [if_neg hemp]
      dsimp only
      by_cases hwait : (options.max_attempts.getD 0 > 0 &&
          options.polling_interval.getD 0 > 0) = true
      · rw [if_pos hwait]
        intro dr hdr
        rcases List.mem_filterMap.mp hdr with ⟨id, hid, hopt⟩
        have hpoll : poll id = .ok dr := by
          cases hp : poll id with
          | error err => rw [hp] at hopt; cases hopt
          | ok r => rw [hp] at hopt; cases hopt; rfl
        rcases hids id hid with ⟨path, hpath, ur, hu, hidr⟩
        exact ⟨path, hpath, ur, hu, by rw [hecho id dr hpoll, hidr]⟩
      · rw [if_neg hwait]
        intro dr hdr
        rcases List.mem_map.mp hdr with ⟨id, hid, rfl⟩
        rcases hids id hid with ⟨path, hpath, ur, hu, hidr⟩
        exact ⟨path, hpath, ur, hu, hidr⟩

/-- C6 witness: a three-path batch whose middle upload fails and whose
polling policy is enabled; the surviving results keep input order and
their ids come from successful uploads. -/
theorem process_batch_partial_failure_witness :
    0 < witnessBatchOptions.max_concurrency.getD 5 ∧
    process_batch stubUpload stubPoll [] witnessBatchOptions = ⟨[], [], []⟩ ∧
    (process_batch stubUpload stubPoll ["a", "bad", "c"] witnessBatchOptions).results.length ≤
      (["a", "bad", "c"] : List String).length ∧
    (∀ dr ∈ (process_batch stubUpload stubPoll ["a", "bad", "c"] witnessBatchOptions).results,
      ∃ path ∈ (["a", "bad", "c"] : List String), ∃ ur, stubUpload path = .ok ur ∧
        dr.request_id = ur.request_id) := by
  have hecho : ∀ id r, stubPoll id = .ok r → r.request_id = id := by
    intro id r h
    unfold stubPoll at h
    by_cases hid : id = "id-slow"
    · rw [if_pos hid] at h
      cases h
    · rw [if_neg hid] at h
      cases h
      rfl
  have h := process_batch_partial_failure stubUpload stubPoll ["a", "bad", "c"]
    witnessBatchOptions (by norm_num [witnessBatchOptions]) hecho
  exact ⟨by norm_num [witnessBatchOptions], h.1, h.2.2.2.1, h.2.2.2.2⟩

/-! ### C10: detect_file refinement -/

/-- C10: `detect_file` behaves exactly as uploading the file and then
calling `get_result` on the returned request id with the fixed policy
`max_attempts = 150`, `polling_interval = 2000` milliseconds. -/
theorem detect_file_refines_spec
    (upload : String → Except SdkError UploadResult)
    (fetchFor : String → Nat → Except SdkError AnalysisResult)
    (elapsedSecs : Nat) (file_path : String) :
    detect_file upload fetchFor elapsedSecs file_path =
      detectFileSpec upload fetchFor elapsedSecs file_path := by
  rfl

end RealityDefender
